import Mathlib

set_option maxRecDepth 16384

/-!
Shallow embedding of `flask_mailgun.py` (klokantech/flask-mailgun).

Python values that can be a string or `None` are modelled as `Option String`
(`none` = Python `None`).  Keyword-argument dictionaries and the Flask
`app.config` mapping are modelled as insertion-ordered association lists
(`PyDict`) whose operations mirror Python `dict` semantics: `pdGet` is
`d[k]`-style lookup returning `none` when the key is absent, `pdSet` is
`d[k] = v` (update in place, append when new), `pdErase`/`pdPop` model
`d.pop(k, None)`, `pdSetdefault` models `d.setdefault(k, v)`.

External collaborators are parameters of the embedded functions:
`html2text` (the HTML-to-Markdown conversion from the `html2text` package),
`respond` (the HTTP layer: what `requests.post` would answer to a given
request), and `jinja` (Flask's `render_template_string` with the ambient
request context abstracted: it takes the template string and the `message`
value bound in the rendering context).
-/

/-- Association-list model of a Python `dict` with string keys and
string-or-`None` values. -/
abbrev PyDict := List (String × Option String)

/-- Python `d[k]` / `k in d`: first binding of `k`, `none` when the key is
absent.  The outer `Option` is key presence, the inner one is the value
(which may itself be Python `None`). -/
def pdGet : PyDict → String → Option (Option String)
  | [], _ => none
  | p :: rest, k => if p.1 = k then some p.2 else pdGet rest k

/-- Python `k in d`. -/
def pdContains (d : PyDict) (k : String) : Bool :=
  (pdGet d k).isSome

/-- Python `d[k] = v`: replace the first binding of `k` in place, append a
new binding when `k` is absent (Python dicts preserve insertion order and
keep the position of an updated key). -/
def pdSet : PyDict → String → Option String → PyDict
  | [], k, v => [(k, v)]
  | p :: rest, k, v => if p.1 = k then (k, v) :: rest else p :: pdSet rest k v

/-- Removal of a key, as performed by Python `d.pop(k, ...)`. -/
def pdErase : PyDict → String → PyDict
  | [], _ => []
  | p :: rest, k => if p.1 = k then pdErase rest k else p :: pdErase rest k

/-- Python `d.pop(k, None)`: the value bound to `k` (`none` when the key is
absent or bound to `None`) together with the dict without `k`. -/
def pdPop (d : PyDict) (k : String) : Option String × PyDict :=
  ((pdGet d k).join, pdErase d k)

/-- Python `d.setdefault(k, v)`: unchanged when `k` is present (even bound
to `None`), otherwise `k` is appended bound to `v`. -/
def pdSetdefault (d : PyDict) (k : String) (v : Option String) : PyDict :=
  if pdContains d k then d else pdSet d k v

/-- Python `config.get(k)`: `None` both when the key is absent and when it
is present bound to `None`. -/
def cfgGet (c : PyDict) (k : String) : Option String :=
  (pdGet c k).join

/-- The `x = config.get(KEY); if x is None: x = default` idiom used by
`Mailgun.init_app` for every template option. -/
def cfgTemplate (c : PyDict) (k : String) (dflt : String) : String :=
  (cfgGet c k).getD dflt

/-- Python `str(x)` for a string-or-`None` value, as used by
`'no-reply@{}'.format(self.domain)` and `str.format` substitution. -/
def pyStr : Option String → String
  | none => "None"
  | some s => s

/-- Python truthiness of a `bool`-or-`None` attribute (`if self.debug:`). -/
def pyTruthy : Option Bool → Bool
  | none => false
  | some b => b

/-- Field lookup during template substitution.  Python's `str.format` and
`%`-formatting raise `KeyError` on a field missing from the context; no
code path exercised by the verified claims does so, and the model totalises
that case to the empty string. -/
def lookupField (fields : List (String × String)) (key : String) : String :=
  match fields.find? (fun p => p.1 == key) with
  | some p => p.2
  | none => ""

/-- Core of `str.format` for the `{name}` placeholder subset used by every
template of the module (no format specs, no positional fields, no brace
escapes).  Fuel-indexed structural recursion; `fuel = length of the input`
always suffices because every step consumes at least one character. -/
def substBraces (fields : List (String × String)) : Nat → List Char → List Char
  | _, [] => []
  | 0, l => l
  | fuel + 1, c :: rest =>
    if c = '{' then
      let key := rest.takeWhile (fun d => d != '}')
      match rest.dropWhile (fun d => d != '}') with
      | '}' :: rest2 =>
          (lookupField fields (String.mk key)).data ++ substBraces fields fuel rest2
      | _ => c :: rest
    else c :: substBraces fields fuel rest

/-- Python `template.format(name₁=v₁, ...)` for `{name}` placeholders. -/
def formatFields (tmpl : String) (fields : List (String × String)) : String :=
  String.mk (substBraces fields tmpl.data.length tmpl.data)

/-- Core of `%`-style formatting for the `%(name)s` / `%(name)d`
placeholder subset used by the logging templates (`%%` escapes kept). -/
def substPercent (fields : List (String × String)) : Nat → List Char → List Char
  | _, [] => []
  | 0, l => l
  | fuel + 1, c :: rest =>
    if c = '%' then
      match rest with
      | '(' :: rest1 =>
          let key := rest1.takeWhile (fun d => d != ')')
          (match rest1.dropWhile (fun d => d != ')') with
           | ')' :: _conv :: rest2 =>
               (lookupField fields (String.mk key)).data ++ substPercent fields fuel rest2
           | _ => c :: rest)
      | '%' :: rest1 => '%' :: substPercent fields fuel rest1
      | _ => c :: rest
    else c :: substPercent fields fuel rest

/-- Python `template % mapping` as performed by `logging.Formatter`. -/
def formatPercent (tmpl : String) (fields : List (String × String)) : String :=
  String.mk (substPercent fields tmpl.data.length tmpl.data)

/-- Module-level `default_api_url_template`. -/
def default_api_url_template : String :=
  "https://api.mailgun.net/v3/{domain}/messages"

/-- Module-level `default_debug_template`.  NOTE: the module defines only
this `default_`-prefixed name; the bare name `debug_template` referenced at
line 190 of `Mailgun.send` is not defined at module scope. -/
def default_debug_template : String :=
  "Mailgun send\n\nFrom:       %(from)s\nTo:         %(to)s\nSubject:    %(subject)s\n\n%(text)s\n\n----------------------------------------\n\n%(html)s\n"

/-- Module-level `default_logging_template`. -/
def default_logging_template : String :=
  "Severity:   %(levelname)s\nLocation:   %(pathname)s:%(lineno)d\nModule:     %(module)s\nFunction:   %(funcName)s\nTime:       %(asctime)s\n\n%(message)s\n"

/-- Module-level `default_error_subject_withexcinfo_template`. -/
def default_error_subject_withexcinfo_template : String :=
  "ERROR: {exc_info}"

/-- Module-level `default_error_subject_withoutexcinfo_template`. -/
def default_error_subject_withoutexcinfo_template : String :=
  "{levelname}: {pathname}:{lineno}"

/-- Module-level `default_error_template`: a Jinja template rendered by
`render_template_string`, never by `str.format`; its exact text is carried
verbatim (braces written with escape codes). -/
def default_error_template : String :=
  "\x7b% autoescape false -%\x7d\n\x7b\x7b message \x7d\x7d\n\n\x7b\x7b request.method \x7d\x7d \x7b\x7b request.url \x7d\x7d\n\x7b% for key, val in request.headers.items()|sort -%\x7d\n\x7b\x7b key \x7d\x7d: \x7b\x7b val \x7d\x7d\n\x7b% endfor -%\x7d\n\x7b% for key, val in session.items()|sort -%\x7d\nSession: \x7b\x7b key \x7d\x7d=\x7b\x7b val \x7d\x7d\n\x7b% endfor %\x7d\n\x7b% for key, val in request.form.items()|sort -%\x7d\n\x7b\x7b key \x7d\x7d=\x7b\x7b val \x7d\x7d\n\x7b% endfor %\x7d\n\x7b% endautoescape %\x7d\n"

/-- Module-level `default_api_error_template`. -/
def default_api_error_template : String :=
  "Mailgun API {method} at {url} failed with status code {status_code}:\n{text}"

/-- The `Mailgun` extension object.  `__init__` sets every attribute to
`None`; `init_app` fills them in, so each attribute is string-or-`None`
(`debug` is bool-or-`None`).  `domain`/`key` hold the raw configuration
values, which may themselves be Python `None`. -/
structure Mailgun where
  debug : Option Bool
  domain : Option String
  key : Option String
  api_url_template : Option String
  debug_template : Option String
  logging_template : Option String
  error_subject_withexcinfo_template : Option String
  error_subject_withoutexcinfo_template : Option String
  error_template : Option String
  api_error_template : Option String
deriving Repr, DecidableEq

/-- The slice of a Flask application that `init_app` reads and writes: the
`debug` flag and the configuration mapping. -/
structure App where
  debug : Bool
  config : PyDict
deriving Repr, DecidableEq

/-- Exceptions `init_app` can raise: `app.config[k]` raises `KeyError`
when `k` is absent. -/
inductive InitError where
  | keyError (key : String)
deriving Repr, DecidableEq

/-- The data an `APIError` exception carries: the fields of the `requests`
response object it stores (`response.request.method`, `response.request.url`,
`response.status_code`, `response.text`) plus the dispatcher's
`api_error_template` used by `__str__`. -/
structure APIErrorData where
  method : String
  url : String
  status_code : Nat
  text : String
  api_error_template : Option String
deriving Repr, DecidableEq

/-- Method `APIError.__str__`: the `api_error_template` with the method, URL,
status code and response body substituted.  `none` when the stored template
is Python `None` (where `str()` would raise); after `init_app` the template
is always a string. -/
def APIErrorData.str (a : APIErrorData) : Option String :=
  a.api_error_template.map fun t =>
    formatFields t
      [("method", a.method), ("url", a.url),
       ("status_code", toString a.status_code), ("text", a.text)]

/-- Exceptions the `send` / `emit` call path can raise. -/
inductive SendError where
  /-- Evaluating an undefined global name (Python `NameError`). -/
  | nameError (name : String)
  /-- Python `KeyError` from `data['to']`. -/
  | keyError (key : String)
  /-- Python `AttributeError`/`TypeError` from calling a method of `None`
  (e.g. `None.format`, `html2text(None)`). -/
  | attrError (msg : String)
  /-- Raised by `raise APIError(response, self.api_error_template)`. -/
  | apiError (e : APIErrorData)
deriving Repr, DecidableEq

/-- One outbound HTTP request as issued by
`requests.post(url, auth=('api', self.key), data=data)`. -/
structure HttpRequest where
  method : String
  url : String
  authUser : String
  authPass : Option String
  body : PyDict
deriving Repr, DecidableEq

/-- The response the HTTP layer gives to a request. -/
structure HttpResponse where
  status_code : Nat
  text : String
deriving Repr, DecidableEq

/-- Observable side effects of one `send` call: the outbound HTTP requests
issued and the log lines written (level, line). -/
structure SendTrace where
  posts : List HttpRequest
  logs : List (String × String)
deriving Repr, DecidableEq

/-- The fields of a `logging.LogRecord` the module reads.  `exc_info` is
modelled as the `str()` form of the exception carried by the record
(`emit` destructures the triple and only formats `str(exc)`). -/
structure LogRecord where
  levelname : String
  pathname : String
  lineno : Nat
  module : String
  funcName : String
  asctime : String
  message : String
  exc_info : Option String
deriving Repr, DecidableEq

/-- Constructor `LoggingHandler.__init__`: stores the dispatcher, sender and recipient,
and installs a `logging.Formatter(mailgun.logging_template)` (whose format
string defaults to `"%(message)s"` when given `None`).  The handler's
severity threshold (`logging.ERROR`) and the unused `messages` list are
not modelled: no verified claim depends on them. -/
structure LoggingHandler where
  mailgun : Mailgun
  fmt : String
  sender : Option String
  recipient : String
deriving Repr, DecidableEq

/-- The configuration mapping after the debug-branch
`config.setdefault('MAILGUN_DOMAIN', 'TESTING')` /
`config.setdefault('MAILGUN_KEY', '')` of `init_app` (lines 123-125);
unchanged in live mode. -/
def cfg1 (app : App) : PyDict :=
  if app.debug then
    pdSetdefault (pdSetdefault app.config "MAILGUN_DOMAIN" (some "TESTING"))
      "MAILGUN_KEY" (some "")
  else app.config

/-- The `Mailgun` record as populated by a successful `init_app` run on
application `a` whose `MAILGUN_DOMAIN` / `MAILGUN_KEY` entries hold
`domain` / `key`: `MAILGUN_API_URL_TEMPLATE` is read from the original
config (line 118, before the debug-branch setdefaults), the remaining
template options from `cfg1 a`; the debug template is only populated in
debug mode (lines 123-129). -/
def mkMailgun (a : App) (domain key : Option String) : Mailgun :=
  { debug := some a.debug
    domain := domain
    key := key
    api_url_template :=
      some (cfgTemplate a.config "MAILGUN_API_URL_TEMPLATE"
        default_api_url_template)
    debug_template :=
      if a.debug then
        some (cfgTemplate (cfg1 a) "MAILGUN_DEBUG_TEMPLATE"
          default_debug_template)
      else none
    logging_template :=
      some (cfgTemplate (cfg1 a) "MAILGUN_LOGGING_TEMPLATE"
        default_logging_template)
    error_subject_withexcinfo_template :=
      some (cfgTemplate (cfg1 a) "MAILGUN_ERROR_SUBJECT_WITHEXCINFO_TEMPLATE"
        default_error_subject_withexcinfo_template)
    error_subject_withoutexcinfo_template :=
      some (cfgTemplate (cfg1 a) "MAILGUN_ERROR_SUBJECT_WITHOUTEXCINFO_TEMPLATE"
        default_error_subject_withoutexcinfo_template)
    error_template :=
      some (cfgTemplate (cfg1 a) "MAILGUN_ERROR_TEMPLATE"
        default_error_template)
    api_error_template :=
      some (cfgTemplate (cfg1 a) "MAILGUN_API_ERROR_TEMPLATE"
        default_api_error_template) }

/-- Method `Mailgun.init_app` (lines 87-166).  `self.domain` and `self.key` are
read with `app.config[...]` (KeyError when absent) BEFORE the debug-branch
`setdefault` calls, exactly as in the source.  `MAILGUN_API_URL_TEMPLATE`
is read from the original config (line 118, before the setdefaults); the
remaining template options are read afterwards, from `cfg1 app` — the two
mappings agree on every key other than `MAILGUN_DOMAIN`/`MAILGUN_KEY`.
The registration `app.extensions['mailgun'] = self` and
`app.logger.addHandler(handler)` are modelled by returning the constructed
dispatcher, the optional handler, and the updated application. -/
def Mailgun.init_app (app : App) :
    Except InitError (Mailgun × Option LoggingHandler × App) :=
  match pdGet app.config "MAILGUN_DOMAIN" with
  | none => Except.error (InitError.keyError "MAILGUN_DOMAIN")
  | some domain =>
    match pdGet app.config "MAILGUN_KEY" with
    | none => Except.error (InitError.keyError "MAILGUN_KEY")
    | some key =>
      let config1 := cfg1 app
      let m : Mailgun := mkMailgun app domain key
      let app' : App := { debug := app.debug, config := config1 }
      match cfgGet config1 "MAILGUN_LOGGING_RECIPIENT" with
      | none => Except.ok (m, none, app')
      | some recipient =>
        let sender := cfgGet config1 "MAILGUN_LOGGING_SENDER"
        let handler : LoggingHandler :=
          { mailgun := m
            fmt := m.logging_template.getD "%(message)s"
            sender := sender
            recipient := recipient }
        Except.ok (m, some handler, app')

/-- Lines 179-186 of `Mailgun.send`: pop `from_` (defaulting the sender to
`'no-reply@' + str(self.domain)` when absent or `None`), store it under
`from`, and derive `text` from `html` via `html2text` when `html` is
present and `text` is not.  The error case is `html` present but bound to
`None`, where `html2text(None)` raises. -/
def Mailgun.build_data (html2text : String → String) (m : Mailgun)
    (data0 : PyDict) : Except SendError PyDict :=
  let popped := pdPop data0 "from_"
  let from_ : String :=
    match popped.1 with
    | some s => s
    | none => "no-reply@" ++ pyStr m.domain
  let data := pdSet popped.2 "from" (some from_)
  if pdContains data "html" && ! pdContains data "text" then
    match (pdGet data "html").join with
    | some h => Except.ok (pdSet data "text" (some (html2text h)))
    | none => Except.error (SendError.attrError "html2text(None)")
  else Except.ok data

/-- Method `Mailgun.send` (lines 168-200).  In debug mode the statement
`current_app.logger.debug(debug_template, data)` evaluates the bare name
`debug_template`, which is not defined at module scope (only
`default_debug_template` is) and is neither a local nor an attribute
access, so the call raises `NameError` before writing any log line; no
HTTP request is issued on that path.  In live mode one POST is issued to
`api_url_template.format(domain=self.domain)` with HTTP Basic credentials
`('api', self.key)` and the built data as the body; a non-200 status
raises `APIError(response, self.api_error_template)`, a 200 status logs
`'Mailgun sent to ' + str(data['to'])` at level info (raising `KeyError`
when `to` is absent). -/
def Mailgun.send (html2text : String → String) (m : Mailgun)
    (respond : HttpRequest → HttpResponse) (data0 : PyDict) :
    SendTrace × Except SendError PyDict :=
  match Mailgun.build_data html2text m data0 with
  | Except.error e => (⟨[], []⟩, Except.error e)
  | Except.ok data =>
    if pyTruthy m.debug then
      let _data := pdSetdefault data "html" (some "(no HTML)")
      (⟨[], []⟩, Except.error (SendError.nameError "debug_template"))
    else
      match m.api_url_template with
      | none => (⟨[], []⟩, Except.error (SendError.attrError "None.format"))
      | some ut =>
        let url := formatFields ut [("domain", pyStr m.domain)]
        let req : HttpRequest :=
          { method := "POST", url := url, authUser := "api"
            authPass := m.key, body := data }
        let resp := respond req
        if resp.status_code ≠ 200 then
          (⟨[req], []⟩, Except.error (SendError.apiError
            { method := "POST", url := url, status_code := resp.status_code
              text := resp.text, api_error_template := m.api_error_template }))
        else
          match pdGet data "to" with
          | none => (⟨[req], []⟩, Except.error (SendError.keyError "to"))
          | some v =>
            (⟨[req], [("info", "Mailgun sent to " ++ pyStr v)]⟩,
              Except.ok data)

/-- The rendering context `logging.Formatter` offers to the format string:
the record's attributes. -/
def recordFields (record : LogRecord) : List (String × String) :=
  [("levelname", record.levelname), ("pathname", record.pathname),
   ("lineno", toString record.lineno), ("module", record.module),
   ("funcName", record.funcName), ("asctime", record.asctime),
   ("message", record.message)]

/-- Python `template.format(...)` on a string-or-`None` attribute: calling
`.format` on `None` raises. -/
def fmtOpt (t : Option String) (fields : List (String × String)) :
    Except SendError String :=
  match t with
  | some s => Except.ok (formatFields s fields)
  | none => Except.error (SendError.attrError "None.format")

/-- Lines 214-238 of `LoggingHandler.emit` up to the `send` call: the
keyword arguments `emit` passes to `self.mailgun.send`.  The subject comes
from `error_subject_withexcinfo_template.format(exc_info=exc)` when the
record carries exception info, else from
`error_subject_withoutexcinfo_template.format(levelname=..., pathname=...,
lineno=...)`; the body is `render_template_string(error_template,
message=self.format(record))`. -/
def emit_message_data (jinja : String → String → String)
    (h : LoggingHandler) (record : LogRecord) : Except SendError PyDict :=
  match
    (match record.exc_info with
     | some exc =>
         fmtOpt h.mailgun.error_subject_withexcinfo_template
           [("exc_info", exc)]
     | none =>
         fmtOpt h.mailgun.error_subject_withoutexcinfo_template
           [("levelname", record.levelname), ("pathname", record.pathname),
            ("lineno", toString record.lineno)])
  with
  | Except.error e => Except.error e
  | Except.ok subject =>
    let message := formatPercent h.fmt (recordFields record)
    match h.mailgun.error_template with
    | none => Except.error (SendError.attrError "error_template is None")
    | some t =>
      Except.ok
        [("from_", h.sender), ("to", some h.recipient),
         ("subject", some subject), ("text", some (jinja t message))]

/-- Method `LoggingHandler.emit` (lines 214-238): build the message data and call
`self.mailgun.send(from_=self.sender, to=self.recipient, subject=subject,
text=text)`.  There is no `try`/`except` around the `send` call: whatever
`send` produces — trace and outcome alike — is the result of `emit`. -/
def LoggingHandler.emit (html2text : String → String)
    (jinja : String → String → String)
    (respond : HttpRequest → HttpResponse)
    (h : LoggingHandler) (record : LogRecord) :
    SendTrace × Except SendError PyDict :=
  match emit_message_data jinja h record with
  | Except.error e => (⟨[], []⟩, Except.error e)
  | Except.ok data => Mailgun.send html2text h.mailgun respond data

/-- The six template strings plus the endpoint URL pattern held by a
dispatcher, in a fixed order: API URL pattern, debug echo, log formatting,
error-subject-with-exception, error-subject-without-exception, error body,
API-error message. -/
def templateFields (m : Mailgun) : List (Option String) :=
  [m.api_url_template, m.debug_template, m.logging_template,
   m.error_subject_withexcinfo_template,
   m.error_subject_withoutexcinfo_template,
   m.error_template, m.api_error_template]

/-- The configuration keys of the template options, in the order of
`templateFields`. -/
def templateKeys : List String :=
  ["MAILGUN_API_URL_TEMPLATE", "MAILGUN_DEBUG_TEMPLATE",
   "MAILGUN_LOGGING_TEMPLATE", "MAILGUN_ERROR_SUBJECT_WITHEXCINFO_TEMPLATE",
   "MAILGUN_ERROR_SUBJECT_WITHOUTEXCINFO_TEMPLATE",
   "MAILGUN_ERROR_TEMPLATE", "MAILGUN_API_ERROR_TEMPLATE"]

/-- What the spec promises for each template slot: the configured override
when one is supplied, the built-in default otherwise — each slot depending
only on its own configuration key (the debug-echo template is populated
only in debug mode). -/
def expectedTemplates (debug : Bool) (c : PyDict) : List (Option String) :=
  [some (cfgTemplate c "MAILGUN_API_URL_TEMPLATE" default_api_url_template),
   if debug then
     some (cfgTemplate c "MAILGUN_DEBUG_TEMPLATE" default_debug_template)
   else none,
   some (cfgTemplate c "MAILGUN_LOGGING_TEMPLATE" default_logging_template),
   some (cfgTemplate c "MAILGUN_ERROR_SUBJECT_WITHEXCINFO_TEMPLATE"
     default_error_subject_withexcinfo_template),
   some (cfgTemplate c "MAILGUN_ERROR_SUBJECT_WITHOUTEXCINFO_TEMPLATE"
     default_error_subject_withoutexcinfo_template),
   some (cfgTemplate c "MAILGUN_ERROR_TEMPLATE" default_error_template),
   some (cfgTemplate c "MAILGUN_API_ERROR_TEMPLATE"
     default_api_error_template)]

/-- The one HTTP request `requests.post(url, auth=('api', self.key),
data=data)` issues on the live path of `send`, for a dispatcher `m` with
URL pattern `ut` and built message data `data`. -/
def mkPost (m : Mailgun) (ut : String) (data : PyDict) : HttpRequest :=
  { method := "POST"
    url := formatFields ut [("domain", pyStr m.domain)]
    authUser := "api"
    authPass := m.key
    body := data }

/-- A trivial stand-in for the external `html2text` conversion, used to
instantiate witnesses (the theorems hold for every conversion function). -/
def id_html2text : String → String := fun s => s

/-- A stand-in for `render_template_string`, used to instantiate
witnesses. -/
def jinjaW : String → String → String := fun _ message => message

/-- An HTTP layer that always answers 200 `OK`. -/
def respond200 : HttpRequest → HttpResponse := fun _ => ⟨200, "OK"⟩

/-- An HTTP layer that always answers 401 `Unauthorized`. -/
def respond401 : HttpRequest → HttpResponse := fun _ => ⟨401, "Unauthorized"⟩

/-- A live-mode dispatcher as produced by `init_app` on a non-debug
application configured with domain `d.com` and key `k` and no overrides. -/
def mLive : Mailgun :=
  { debug := some false
    domain := some "d.com"
    key := some "k"
    api_url_template := some default_api_url_template
    debug_template := none
    logging_template := some default_logging_template
    error_subject_withexcinfo_template :=
      some default_error_subject_withexcinfo_template
    error_subject_withoutexcinfo_template :=
      some default_error_subject_withoutexcinfo_template
    error_template := some default_error_template
    api_error_template := some default_api_error_template }

/-- A debug-mode dispatcher (defaults, domain `TESTING`, empty key). -/
def mDebug : Mailgun :=
  { mLive with
    debug := some true
    domain := some "TESTING"
    key := some ""
    debug_template := some default_debug_template }

/-- Concrete message keyword arguments: recipient and plain text only. -/
def dataW : PyDict := [("to", some "user@example.com"), ("text", some "hello")]

/-- Concrete message keyword arguments with an explicit sender. -/
def dataFrom : PyDict :=
  [("from_", some "sender@x.com"), ("to", some "a@b"), ("text", some "t")]

/-- Concrete message keyword arguments with an HTML body and no text. -/
def dataHtml : PyDict := [("to", some "a@b"), ("html", some "<b>x</b>")]

/-- A logging handler over `mLive` with no configured sender. -/
def hW : LoggingHandler :=
  { mailgun := mLive
    fmt := default_logging_template
    sender := none
    recipient := "ops@d.com" }

/-- A log record without exception info. -/
def recPlain : LogRecord :=
  { levelname := "ERROR", pathname := "/app/x.py", lineno := 12
    module := "x", funcName := "f", asctime := "2020-01-01 00:00:00"
    message := "boom", exc_info := none }

/-- A log record carrying exception info. -/
def recExc : LogRecord := { recPlain with exc_info := some "ValueError: bad" }

/-- A non-debug application with domain and key configured, no overrides. -/
def appA : App :=
  { debug := false
    config := [("MAILGUN_DOMAIN", some "d.com"), ("MAILGUN_KEY", some "k")] }

/-- Application `appA` with the error-body template overridden. -/
def appB : App :=
  { debug := false
    config := [("MAILGUN_DOMAIN", some "d.com"), ("MAILGUN_KEY", some "k"),
               ("MAILGUN_ERROR_TEMPLATE", some "OVERRIDE")] }

/-- The dispatcher `init_app appA` produces. -/
def mA : Mailgun := { mLive with }

/-- The dispatcher `init_app appB` produces: only the error-body template
differs from `mA`. -/
def mB : Mailgun := { mLive with error_template := some "OVERRIDE" }

/-- Application `appA` with an error-notification recipient and no sender configured. -/
def appC : App :=
  { debug := false
    config := [("MAILGUN_DOMAIN", some "d.com"), ("MAILGUN_KEY", some "k"),
               ("MAILGUN_LOGGING_RECIPIENT", some "ops@d.com")] }

/-! ### Association-list lemmas -/

theorem pdGet_set_self (d : PyDict) (k : String) (v : Option String) :
    pdGet (pdSet d k v) k = some v := by
  induction d with
  | nil => simp [pdSet, pdGet]
  | cons p rest ih =>
    by_cases h : p.1 = k
    · simp [pdSet, pdGet, h]
    · simp [pdSet, pdGet, h, ih]

theorem pdGet_set_ne (d : PyDict) (k : String) (v : Option String)
    (k' : String) (h : k' ≠ k) :
    pdGet (pdSet d k v) k' = pdGet d k' := by
  induction d with
  | nil => simp [pdSet, pdGet, Ne.symm h]
  | cons p rest ih =>
    by_cases hp : p.1 = k
    · simp [pdSet, pdGet, hp, Ne.symm h]
    · simp [pdSet, pdGet, hp, ih]

theorem pdGet_erase_ne (d : PyDict) (k k' : String) (h : k' ≠ k) :
    pdGet (pdErase d k) k' = pdGet d k' := by
  induction d with
  | nil => simp [pdErase]
  | cons p rest ih =>
    by_cases hp : p.1 = k
    · simp [pdErase, pdGet, hp, ih, Ne.symm h]
    · simp [pdErase, pdGet, hp, ih]

theorem pdGet_setdefault_ne (d : PyDict) (k : String) (v : Option String)
    (k' : String) (h : k' ≠ k) :
    pdGet (pdSetdefault d k v) k' = pdGet d k' := by
  unfold pdSetdefault
  split
  · rfl
  · exact pdGet_set_ne d k v k' h

/-- Mapping `cfg1` touches only `MAILGUN_DOMAIN` and `MAILGUN_KEY`. -/
theorem cfgGet_cfg1 (a : App) (k : String)
    (h1 : k ≠ "MAILGUN_DOMAIN") (h2 : k ≠ "MAILGUN_KEY") :
    cfgGet (cfg1 a) k = cfgGet a.config k := by
  unfold cfg1
  split
  · unfold cfgGet
    rw [pdGet_setdefault_ne _ _ _ _ h2, pdGet_setdefault_ne _ _ _ _ h1]
  · rfl

/-! ### `build_data` lemmas -/

/-- The `from` field of the built message: the popped `from_` value when it
was supplied non-`None`, else `'no-reply@' + str(self.domain)`. -/
theorem build_data_from (html2text : String → String) (m : Mailgun)
    (data0 d : PyDict)
    (h : Mailgun.build_data html2text m data0 = Except.ok d) :
    pdGet d "from" =
      some (some (match (pdGet data0 "from_").join with
        | some s => s
        | none => "no-reply@" ++ pyStr m.domain)) := by
  simp only [Mailgun.build_data, pdPop] at h
  split at h
  · split at h
    · injection h with h
      subst h
      rw [pdGet_set_ne _ _ _ _ (by decide : ("from" : String) ≠ "text"),
        pdGet_set_self]
    · cases h
  · injection h with h
    subst h
    rw [pdGet_set_self]

/-! ### Claims C1, C3, C4 -/

/-- C1 (code behavior at the claim's scenario): for every call to `send`
with the dispatcher in debug mode, no HTTP request is issued but the call
does NOT complete successfully: line 190 evaluates the undefined module
name `debug_template` (only `default_debug_template` exists), so every
debug-mode `send` raises `NameError` — contradicting the claim and the
method's own docstring ("It will not actually send emails in debug mode,
instead it will log them"). -/
theorem C1_debug_send_raises_nameError (html2text : String → String)
    (m : Mailgun) (respond : HttpRequest → HttpResponse) (data0 d : PyDict)
    (hdbg : pyTruthy m.debug = true)
    (hbuild : Mailgun.build_data html2text m data0 = Except.ok d) :
    Mailgun.send html2text m respond data0 =
      (⟨[], []⟩, Except.error (SendError.nameError "debug_template")) := by
  unfold Mailgun.send
  rw [hbuild, hdbg]
  simp

/-- C1 witness: a concrete debug-mode send of a plain-text message. -/
theorem C1_debug_send_raises_nameError_witness :
    Mailgun.send id_html2text mDebug respond200 dataW =
      (⟨[], []⟩, Except.error (SendError.nameError "debug_template")) :=
  C1_debug_send_raises_nameError id_html2text mDebug respond200 dataW
    [("to", some "user@example.com"), ("text", some "hello"),
     ("from", some "no-reply@TESTING")]
    rfl rfl

/-- C3: for every call to `send` (through its message-building step, lines
179-183), the outgoing message's `from` field is the caller-supplied
`from_` value verbatim when that value is supplied non-`None`, and
`"no-reply@" ++ domain` when `from_` is absent or `None`. -/
theorem C3_from_field (html2text : String → String) (m : Mailgun)
    (dom : String) (data0 d : PyDict)
    (hdom : m.domain = some dom)
    (h : Mailgun.build_data html2text m data0 = Except.ok d) :
    pdGet d "from" =
      some (some (match (pdGet data0 "from_").join with
        | some s => s
        | none => "no-reply@" ++ dom)) := by
  have hf := build_data_from html2text m data0 d h
  rw [hdom] at hf
  exact hf

/-- C3 witness: an explicit `from_` is used verbatim. -/
theorem C3_from_field_witness :
    pdGet [("to", some "a@b"), ("text", some "t"),
           ("from", some "sender@x.com")] "from" =
      some (some (match (pdGet dataFrom "from_").join with
        | some s => s
        | none => "no-reply@" ++ "d.com")) :=
  C3_from_field id_html2text mLive "d.com" dataFrom
    [("to", some "a@b"), ("text", some "t"), ("from", some "sender@x.com")]
    rfl rfl

/-- C4: when `html` is supplied (as a string) and `text` is not, the built
message's `text` field is the `html2text` conversion of the supplied
`html`; when `text` is supplied, it is passed through unchanged. -/
theorem C4_text_from_html (html2text : String → String) (m : Mailgun)
    (data0 : PyDict) :
    (∀ hs : String, pdGet data0 "html" = some (some hs) →
      pdContains data0 "text" = false →
      ∃ d, Mailgun.build_data html2text m data0 = Except.ok d ∧
        pdGet d "text" = some (some (html2text hs)))
    ∧ (pdContains data0 "text" = true →
      ∀ d, Mailgun.build_data html2text m data0 = Except.ok d →
        pdGet d "text" = pdGet data0 "text") := by
  simp only [Mailgun.build_data, pdPop]
  set F : Option String := some (match (pdGet data0 "from_").join with
    | some s => s
    | none => "no-reply@" ++ pyStr m.domain) with hF
  set base : PyDict := pdSet (pdErase data0 "from_") "from" F with hbase
  have hhtml : pdGet base "html" = pdGet data0 "html" := by
    rw [hbase, pdGet_set_ne _ _ _ _ (by decide : ("html" : String) ≠ "from"),
      pdGet_erase_ne _ _ _ (by decide : ("html" : String) ≠ "from_")]
  have htext : pdGet base "text" = pdGet data0 "text" := by
    rw [hbase, pdGet_set_ne _ _ _ _ (by decide : ("text" : String) ≠ "from"),
      pdGet_erase_ne _ _ _ (by decide : ("text" : String) ≠ "from_")]
  constructor
  · intro hs hh ht
    have hcond : (pdContains base "html" && !pdContains base "text") = true := by
      unfold pdContains
      unfold pdContains at ht
      rw [hhtml, htext, hh, ht]
      rfl
    rw [hcond]
    refine ⟨pdSet base "text" (some (html2text hs)), ?_,
      pdGet_set_self _ _ _⟩
    simp only [if_pos rfl]
    rw [hhtml, hh]
    rfl
  · intro ht d hd
    have hcond : (pdContains base "html" && !pdContains base "text") = false := by
      unfold pdContains
      unfold pdContains at ht
      rw [htext, ht]
      simp
    rw [hcond] at hd
    simp at hd
    subst hd
    exact htext

/-- C4 witness: a message with an HTML body and no text body gets the
converted body; a message with an explicit text body keeps it. -/
theorem C4_text_from_html_witness :
    (∃ d, Mailgun.build_data id_html2text mLive dataHtml = Except.ok d ∧
      pdGet d "text" = some (some (id_html2text "<b>x</b>")))
    ∧ pdGet [("to", some "a@b"), ("text", some "t"),
             ("from", some "sender@x.com")] "text" = pdGet dataFrom "text" :=
  ⟨(C4_text_from_html id_html2text mLive dataHtml).1 "<b>x</b>" rfl rfl,
   (C4_text_from_html id_html2text mLive dataFrom).2 rfl
     [("to", some "a@b"), ("text", some "t"), ("from", some "sender@x.com")]
     rfl⟩

/-! ### The live path of `send` (claims C2, C9) -/

/-- In live mode (lines 193-200), `send` issues exactly the one POST
`mkPost m ut data` and classifies the response: non-200 raises `APIError`,
200 logs the recipient (KeyError when `to` is absent). -/
theorem send_live (html2text : String → String) (m : Mailgun)
    (respond : HttpRequest → HttpResponse) (data0 data : PyDict) (ut : String)
    (hdbg : pyTruthy m.debug = false)
    (hut : m.api_url_template = some ut)
    (hbuild : Mailgun.build_data html2text m data0 = Except.ok data) :
    Mailgun.send html2text m respond data0 =
      (if (respond (mkPost m ut data)).status_code ≠ 200 then
        (⟨[mkPost m ut data], []⟩,
          Except.error (SendError.apiError
            { method := "POST"
              url := formatFields ut [("domain", pyStr m.domain)]
              status_code := (respond (mkPost m ut data)).status_code
              text := (respond (mkPost m ut data)).text
              api_error_template := m.api_error_template }))
      else
        match pdGet data "to" with
        | none => (⟨[mkPost m ut data], []⟩,
            Except.error (SendError.keyError "to"))
        | some v => (⟨[mkPost m ut data],
            [("info", "Mailgun sent to " ++ pyStr v)]⟩, Except.ok data)) := by
  unfold Mailgun.send mkPost
  rw [hbuild]
  dsimp only
  rw [hdbg, hut]
  simp only [Bool.false_eq_true, if_false]

/-- C2: in live mode, a 200 response makes `send` succeed and log one
informational line naming the recipient; any non-200 response makes it
raise an `APIError` whose stored fields are exactly the request method
(`POST`), the request URL, the response status code and the response body,
and whose rendered message (`__str__`) is the API-error template with
exactly those four values substituted. -/
theorem C2_live_response_classification (html2text : String → String)
    (m : Mailgun) (respond : HttpRequest → HttpResponse)
    (data0 data : PyDict) (ut et : String) (v : Option String)
    (hdbg : pyTruthy m.debug = false)
    (hut : m.api_url_template = some ut)
    (het : m.api_error_template = some et)
    (hbuild : Mailgun.build_data html2text m data0 = Except.ok data)
    (hto : pdGet data "to" = some v) :
    ((respond (mkPost m ut data)).status_code = 200 →
      Mailgun.send html2text m respond data0 =
        (⟨[mkPost m ut data], [("info", "Mailgun sent to " ++ pyStr v)]⟩,
          Except.ok data))
    ∧ ((respond (mkPost m ut data)).status_code ≠ 200 →
      Mailgun.send html2text m respond data0 =
        (⟨[mkPost m ut data], []⟩,
          Except.error (SendError.apiError
            { method := "POST"
              url := formatFields ut [("domain", pyStr m.domain)]
              status_code := (respond (mkPost m ut data)).status_code
              text := (respond (mkPost m ut data)).text
              api_error_template := some et }))
      ∧ APIErrorData.str
          { method := "POST"
            url := formatFields ut [("domain", pyStr m.domain)]
            status_code := (respond (mkPost m ut data)).status_code
            text := (respond (mkPost m ut data)).text
            api_error_template := some et } =
        some (formatFields et
          [("method", "POST"),
           ("url", formatFields ut [("domain", pyStr m.domain)]),
           ("status_code", toString (respond (mkPost m ut data)).status_code),
           ("text", (respond (mkPost m ut data)).text)])) := by
  rw [send_live html2text m respond data0 data ut hdbg hut hbuild]
  constructor
  · intro h200
    rw [if_neg (by simp [h200]), hto]
  · intro hne
    rw [if_pos hne, het]
    exact ⟨rfl, rfl⟩

/-- C2 witness: against `mLive`, a simulated 200 yields success with the
recipient named in the log line, and a simulated 401 `Unauthorized` yields
an `APIError` carrying exactly (`POST`, the substituted URL, 401,
`Unauthorized`). -/
theorem C2_live_response_classification_witness :
    Mailgun.send id_html2text mLive respond200 dataW =
      (⟨[mkPost mLive default_api_url_template
          [("to", some "user@example.com"), ("text", some "hello"),
           ("from", some "no-reply@d.com")]],
        [("info", "Mailgun sent to user@example.com")]⟩,
       Except.ok [("to", some "user@example.com"), ("text", some "hello"),
                  ("from", some "no-reply@d.com")])
    ∧ Mailgun.send id_html2text mLive respond401 dataW =
      (⟨[mkPost mLive default_api_url_template
          [("to", some "user@example.com"), ("text", some "hello"),
           ("from", some "no-reply@d.com")]], []⟩,
       Except.error (SendError.apiError
         { method := "POST"
           url := "https://api.mailgun.net/v3/d.com/messages"
           status_code := 401
           text := "Unauthorized"
           api_error_template := some default_api_error_template })) := by
  constructor
  · have h := (C2_live_response_classification id_html2text mLive respond200
      dataW [("to", some "user@example.com"), ("text", some "hello"),
             ("from", some "no-reply@d.com")]
      default_api_url_template default_api_error_template
      (some "user@example.com") rfl rfl rfl rfl rfl).1 rfl
    exact h
  · have h := (C2_live_response_classification id_html2text mLive respond401
      dataW [("to", some "user@example.com"), ("text", some "hello"),
             ("from", some "no-reply@d.com")]
      default_api_url_template default_api_error_template
      (some "user@example.com") rfl rfl rfl rfl rfl).2 (by decide)
    rw [h.1]
    rfl

/-- C9: every live-mode call of `send` issues exactly one HTTP request: a
POST to the configured URL pattern with the domain substituted for the
`\x7bdomain\x7d` placeholder, authenticated with HTTP Basic credentials
`("api", key)`, carrying the built message fields as its body. -/
theorem C9_single_post (html2text : String → String) (m : Mailgun)
    (respond : HttpRequest → HttpResponse) (data0 data : PyDict) (ut : String)
    (hdbg : pyTruthy m.debug = false)
    (hut : m.api_url_template = some ut)
    (hbuild : Mailgun.build_data html2text m data0 = Except.ok data) :
    (Mailgun.send html2text m respond data0).1.posts =
      [{ method := "POST"
         url := formatFields ut [("domain", pyStr m.domain)]
         authUser := "api"
         authPass := m.key
         body := data }] := by
  rw [send_live html2text m respond data0 data ut hdbg hut hbuild]
  unfold mkPost
  split
  · rfl
  · split <;> rfl

/-- C9 witness: the single POST of a concrete live send (both for a 200
and a non-200 response). -/
theorem C9_single_post_witness :
    (Mailgun.send id_html2text mLive respond401 dataW).1.posts =
      [{ method := "POST"
         url := formatFields default_api_url_template
           [("domain", pyStr mLive.domain)]
         authUser := "api"
         authPass := mLive.key
         body := [("to", some "user@example.com"), ("text", some "hello"),
                  ("from", some "no-reply@d.com")] }] :=
  C9_single_post id_html2text mLive respond401 dataW
    [("to", some "user@example.com"), ("text", some "hello"),
     ("from", some "no-reply@d.com")]
    default_api_url_template rfl rfl rfl

/-! ### `init_app` inversion (claims C5, C6, C10) -/

/-- Full inversion of a successful `init_app` run: the constructed
dispatcher, the updated application, and the optional logging handler. -/
theorem init_app_inv (a : App) (m : Mailgun) (oh : Option LoggingHandler)
    (a' : App) (h : Mailgun.init_app a = Except.ok (m, oh, a')) :
    (∃ dv kv, pdGet a.config "MAILGUN_DOMAIN" = some dv ∧
      pdGet a.config "MAILGUN_KEY" = some kv ∧ m = mkMailgun a dv kv) ∧
    a' = { debug := a.debug, config := cfg1 a } ∧
    oh = (match cfgGet (cfg1 a) "MAILGUN_LOGGING_RECIPIENT" with
      | none => none
      | some r => some
          { mailgun := m
            fmt := m.logging_template.getD "%(message)s"
            sender := cfgGet (cfg1 a) "MAILGUN_LOGGING_SENDER"
            recipient := r }) := by
  unfold Mailgun.init_app at h
  split at h
  · cases h
  · rename_i dv hdv
    split at h
    · cases h
    · rename_i kv hkv
      dsimp only at h
      split at h
      · rename_i hrec
        simp only [Except.ok.injEq, Prod.mk.injEq] at h
        obtain ⟨hm, hoh, ha⟩ := h
        refine ⟨⟨dv, kv, hdv, hkv, hm.symm⟩, ha.symm, hoh.symm⟩
      · rename_i r hrec
        simp only [Except.ok.injEq, Prod.mk.injEq] at h
        obtain ⟨hm, hoh, ha⟩ := h
        refine ⟨⟨dv, kv, hdv, hkv, hm.symm⟩, ha.symm, ?_⟩
        rw [← hoh, hm]

/-- C5 (code behavior at the claim's scenario): in debug mode with neither
`MAILGUN_DOMAIN` nor `MAILGUN_KEY` configured, `init_app` does NOT
succeed: lines 115-116 read `app.config['MAILGUN_DOMAIN']` and
`app.config['MAILGUN_KEY']` unconditionally — before the debug-branch
`setdefault` calls of lines 123-125 — so a `KeyError` is raised,
contradicting the claim and the method's own docstring ("They are not
necessary in debug mode"). -/
theorem C5_init_app_debug_keyError :
    Mailgun.init_app { debug := true, config := [] } =
      Except.error (InitError.keyError "MAILGUN_DOMAIN") ∧
    Mailgun.init_app
        { debug := true, config := [("MAILGUN_DOMAIN", some "d.com")] } =
      Except.error (InitError.keyError "MAILGUN_KEY") :=
  ⟨rfl, rfl⟩

/-- The template slots of the dispatcher built by `init_app` are each the
configured override when supplied, the built-in default otherwise, read
from the pre-`setdefault` configuration (the setdefaults touch only
`MAILGUN_DOMAIN`/`MAILGUN_KEY`). -/
theorem templateFields_mkMailgun (a : App) (dv kv : Option String) :
    templateFields (mkMailgun a dv kv) = expectedTemplates a.debug a.config := by
  unfold templateFields mkMailgun expectedTemplates cfgTemplate
  rw [cfgGet_cfg1 a "MAILGUN_DEBUG_TEMPLATE" (by decide) (by decide),
    cfgGet_cfg1 a "MAILGUN_LOGGING_TEMPLATE" (by decide) (by decide),
    cfgGet_cfg1 a "MAILGUN_ERROR_SUBJECT_WITHEXCINFO_TEMPLATE"
      (by decide) (by decide),
    cfgGet_cfg1 a "MAILGUN_ERROR_SUBJECT_WITHOUTEXCINFO_TEMPLATE"
      (by decide) (by decide),
    cfgGet_cfg1 a "MAILGUN_ERROR_TEMPLATE" (by decide) (by decide),
    cfgGet_cfg1 a "MAILGUN_API_ERROR_TEMPLATE" (by decide) (by decide)]

/-- C6: for every configuration, each template slot (and the endpoint URL
pattern) of the initialized dispatcher equals the configured override when
one is supplied and the built-in default otherwise (`expectedTemplates`;
the debug-echo slot is populated in debug mode only); and each slot
depends only on its own configuration key, so two initializations whose
configurations agree on a slot's key yield that slot — hence its rendered
output for any input — unchanged: overriding a single key changes only
that slot. -/
theorem C6_template_overrides (a1 a2 : App) (m1 m2 : Mailgun)
    (oh1 oh2 : Option LoggingHandler) (a1' a2' : App)
    (h1 : Mailgun.init_app a1 = Except.ok (m1, oh1, a1'))
    (h2 : Mailgun.init_app a2 = Except.ok (m2, oh2, a2'))
    (hdbg : a1.debug = a2.debug) :
    templateFields m1 = expectedTemplates a1.debug a1.config ∧
    ∀ i : Fin 7,
      cfgGet a1.config (templateKeys.getD i.val "") =
        cfgGet a2.config (templateKeys.getD i.val "") →
      (templateFields m1).getD i.val none =
        (templateFields m2).getD i.val none := by
  obtain ⟨⟨dv1, kv1, -, -, hm1⟩, -, -⟩ := init_app_inv a1 m1 oh1 a1' h1
  obtain ⟨⟨dv2, kv2, -, -, hm2⟩, -, -⟩ := init_app_inv a2 m2 oh2 a2' h2
  subst hm1
  subst hm2
  rw [templateFields_mkMailgun, templateFields_mkMailgun]
  refine ⟨rfl, ?_⟩
  intro i
  fin_cases i <;>
    (intro hk
     simp only [expectedTemplates, templateKeys, cfgTemplate,
       List.getD_cons_zero, List.getD_cons_succ, Fin.isValue] at hk ⊢
     rw [hk]
     try rw [hdbg])

/-- C6 witness: two concrete initializations — no overrides versus an
overridden error-body template — have all defaulted slots, and the slots
whose keys were not touched (here the logging-format slot) coincide. -/
theorem C6_template_overrides_witness :
    templateFields mA = expectedTemplates appA.debug appA.config ∧
    (templateFields mA).getD 2 none = (templateFields mB).getD 2 none :=
  ⟨(C6_template_overrides appA appB mA mB none none appA appB
      rfl rfl rfl).1,
   (C6_template_overrides appA appB mA mB none none appA appB
      rfl rfl rfl).2 ⟨2, by decide⟩ rfl⟩

/-! ### The notification bridge (claims C7, C8, C10) -/

/-- Looking up `subject` in the keyword arguments `emit` builds. -/
theorem pdGet_emit_subject (x z : Option String) (y s : String) :
    pdGet [("from_", x), ("to", some y), ("subject", some s), ("text", z)]
      "subject" = some (some s) := by
  simp [pdGet]

/-- The keyword arguments `emit` passes to `send` carry
`from_ = self.sender`. -/
theorem emit_message_data_from_ (jinja : String → String → String)
    (h : LoggingHandler) (record : LogRecord) (d : PyDict)
    (hd : emit_message_data jinja h record = Except.ok d) :
    pdGet d "from_" = some h.sender := by
  unfold emit_message_data at hd
  split at hd
  · cases hd
  · split at hd
    · cases hd
    · injection hd with hd
      subst hd
      simp [pdGet]

/-- C7: for every log record the bridge handles (given an initialized
dispatcher, whose subject and body templates are strings), the subject of
the outgoing message is the exception-subject template with the
exception's string form substituted when the record carries exception
info, and otherwise the no-exception-subject template with the record's
severity name, source path and line number substituted. -/
theorem C7_subject_selection (jinja : String → String → String)
    (h : LoggingHandler) (record : LogRecord) (t1 t2 t3 : String)
    (h1 : h.mailgun.error_subject_withexcinfo_template = some t1)
    (h2 : h.mailgun.error_subject_withoutexcinfo_template = some t2)
    (h3 : h.mailgun.error_template = some t3) :
    emit_message_data jinja h record = Except.ok
      [("from_", h.sender), ("to", some h.recipient),
       ("subject", some (match record.exc_info with
         | some exc => formatFields t1 [("exc_info", exc)]
         | none => formatFields t2
             [("levelname", record.levelname), ("pathname", record.pathname),
              ("lineno", toString record.lineno)])),
       ("text", some (jinja t3 (formatPercent h.fmt (recordFields record))))]
    ∧ pdGet [("from_", h.sender), ("to", some h.recipient),
       ("subject", some (match record.exc_info with
         | some exc => formatFields t1 [("exc_info", exc)]
         | none => formatFields t2
             [("levelname", record.levelname), ("pathname", record.pathname),
              ("lineno", toString record.lineno)])),
       ("text", some (jinja t3 (formatPercent h.fmt (recordFields record))))]
      "subject" = some (some (match record.exc_info with
         | some exc => formatFields t1 [("exc_info", exc)]
         | none => formatFields t2
             [("levelname", record.levelname), ("pathname", record.pathname),
              ("lineno", toString record.lineno)])) := by
  refine ⟨?_, pdGet_emit_subject _ _ _ _⟩
  cases hexc : record.exc_info with
  | none =>
    simp only [emit_message_data, hexc, fmtOpt, h2, h3]
  | some exc =>
    simp only [emit_message_data, hexc, fmtOpt, h1, h3]

/-- C7 witness: a record with exception info gets the substituted
exception subject; one without gets severity/path/line substituted. -/
theorem C7_subject_selection_witness :
    (emit_message_data jinjaW hW recExc = Except.ok
      [("from_", none), ("to", some "ops@d.com"),
       ("subject", some "ERROR: ValueError: bad"),
       ("text", some "Severity:   ERROR\nLocation:   /app/x.py:12\nModule:     x\nFunction:   f\nTime:       2020-01-01 00:00:00\n\nboom\n")])
    ∧ emit_message_data jinjaW hW recPlain = Except.ok
      [("from_", none), ("to", some "ops@d.com"),
       ("subject", some "ERROR: /app/x.py:12"),
       ("text", some "Severity:   ERROR\nLocation:   /app/x.py:12\nModule:     x\nFunction:   f\nTime:       2020-01-01 00:00:00\n\nboom\n")] :=
  ⟨(C7_subject_selection jinjaW hW recExc
      default_error_subject_withexcinfo_template
      default_error_subject_withoutexcinfo_template
      default_error_template rfl rfl rfl).1,
   (C7_subject_selection jinjaW hW recPlain
      default_error_subject_withexcinfo_template
      default_error_subject_withoutexcinfo_template
      default_error_template rfl rfl rfl).1⟩

/-- C8: `emit` wraps no `try`/`except` around the dispatch: whenever the
underlying `send` fails, `emit` returns exactly that failure — the same
error and the same side-effect trace (no retry issues further requests,
nothing is swallowed), so the exception propagates into the logging call
path. -/
theorem C8_emit_propagates_failure (html2text : String → String)
    (jinja : String → String → String) (respond : HttpRequest → HttpResponse)
    (h : LoggingHandler) (record : LogRecord) (data : PyDict)
    (tr : SendTrace) (e : SendError)
    (hdata : emit_message_data jinja h record = Except.ok data)
    (hsend : Mailgun.send html2text h.mailgun respond data =
      (tr, Except.error e)) :
    LoggingHandler.emit html2text jinja respond h record =
      (tr, Except.error e) := by
  unfold LoggingHandler.emit
  rw [hdata]
  exact hsend

/-- C8 witness: a live-mode bridge whose provider answers 401 — the
`APIError` surfaces unchanged out of `emit`. -/
theorem C8_emit_propagates_failure_witness :
    LoggingHandler.emit id_html2text jinjaW respond401 hW recPlain =
      (⟨[{ method := "POST"
           url := "https://api.mailgun.net/v3/d.com/messages"
           authUser := "api"
           authPass := some "k"
           body := [("to", some "ops@d.com"),
                    ("subject", some "ERROR: /app/x.py:12"),
                    ("text", some "Severity:   ERROR\nLocation:   /app/x.py:12\nModule:     x\nFunction:   f\nTime:       2020-01-01 00:00:00\n\nboom\n"),
                    ("from", some "no-reply@d.com")] }], []⟩,
       Except.error (SendError.apiError
         { method := "POST"
           url := "https://api.mailgun.net/v3/d.com/messages"
           status_code := 401
           text := "Unauthorized"
           api_error_template := some default_api_error_template })) :=
  C8_emit_propagates_failure id_html2text jinjaW respond401 hW recPlain
    [("from_", none), ("to", some "ops@d.com"),
     ("subject", some "ERROR: /app/x.py:12"),
     ("text", some "Severity:   ERROR\nLocation:   /app/x.py:12\nModule:     x\nFunction:   f\nTime:       2020-01-01 00:00:00\n\nboom\n")]
    _ _ rfl rfl

/-- C10: when `init_app` installed the bridge with no
`MAILGUN_LOGGING_SENDER` configured, the handler's sender is `None`, the
bridge passes `from_ = None` to `send`, and the built notification message
therefore falls back to `from = "no-reply@" ++ domain`. -/
theorem C10_default_sender (html2text : String → String)
    (jinja : String → String → String) (a : App) (m : Mailgun)
    (hdl : LoggingHandler) (a' : App) (dom : String) (record : LogRecord)
    (d d' : PyDict)
    (hinit : Mailgun.init_app a = Except.ok (m, some hdl, a'))
    (hsender : cfgGet (cfg1 a) "MAILGUN_LOGGING_SENDER" = none)
    (hdom : m.domain = some dom)
    (hdata : emit_message_data jinja hdl record = Except.ok d)
    (hbuild : Mailgun.build_data html2text m d = Except.ok d') :
    hdl.sender = none ∧ pdGet d "from_" = some none ∧
    pdGet d' "from" = some (some ("no-reply@" ++ dom)) := by
  obtain ⟨-, -, hoh⟩ := init_app_inv a m (some hdl) a' hinit
  have hsend : hdl.sender = none := by
    rcases hrec : cfgGet (cfg1 a) "MAILGUN_LOGGING_RECIPIENT" with _ | r
    · rw [hrec] at hoh
      cases hoh
    · rw [hrec] at hoh
      injection hoh with hoh
      rw [hoh, hsender]
  have hfrom : pdGet d "from_" = some none := by
    rw [emit_message_data_from_ jinja hdl record d hdata, hsend]
  refine ⟨hsend, hfrom, ?_⟩
  have hb := build_data_from html2text m d d' hbuild
  rw [hfrom, hdom] at hb
  exact hb

/-- C10 witness: a concrete initialization with a logging recipient and no
sender; the notification message's `from` is the generated fallback. -/
theorem C10_default_sender_witness :
    hW.sender = none ∧
    pdGet [("from_", none), ("to", some "ops@d.com"),
           ("subject", some "ERROR: /app/x.py:12"),
           ("text", some "Severity:   ERROR\nLocation:   /app/x.py:12\nModule:     x\nFunction:   f\nTime:       2020-01-01 00:00:00\n\nboom\n")]
      "from_" = some none ∧
    pdGet [("to", some "ops@d.com"),
           ("subject", some "ERROR: /app/x.py:12"),
           ("text", some "Severity:   ERROR\nLocation:   /app/x.py:12\nModule:     x\nFunction:   f\nTime:       2020-01-01 00:00:00\n\nboom\n"),
           ("from", some "no-reply@d.com")]
      "from" = some (some ("no-reply@" ++ "d.com")) :=
  C10_default_sender id_html2text jinjaW appC mLive hW appC "d.com" recPlain
    [("from_", none), ("to", some "ops@d.com"),
     ("subject", some "ERROR: /app/x.py:12"),
     ("text", some "Severity:   ERROR\nLocation:   /app/x.py:12\nModule:     x\nFunction:   f\nTime:       2020-01-01 00:00:00\n\nboom\n")]
    [("to", some "ops@d.com"),
     ("subject", some "ERROR: /app/x.py:12"),
     ("text", some "Severity:   ERROR\nLocation:   /app/x.py:12\nModule:     x\nFunction:   f\nTime:       2020-01-01 00:00:00\n\nboom\n"),
     ("from", some "no-reply@d.com")]
    rfl rfl rfl rfl rfl
